import Mathlib

/-!
Verification of the Trade Order Sheet reorder engine
(src/tradeordersheet.py).

The shallow embedding below models the pure computational core of the
script: numeric cell coercion (`to_num`, lines 67-78), the per-SKU
reorder policy arithmetic (lines 261-289), the excess-order classifier
(line 310), the order-record builder (lines 312-327), the submission
loop (lines 305-329) and the notification path (`send_email`,
lines 96-106).

Python floats are modelled as exact rationals; in particular the float
literal `1.2` is modelled as the rational 6/5, and the builtin `round`
is modelled as round-half-to-even, which is its Python semantics.
Python string operations (`strip`, `replace`, `lower`) are modelled
directly on character lists.
-/

/-- A spreadsheet cell value as it reaches `to_num`: missing (None),
a float NaN, an integer, a (non-NaN) float modelled as a rational, or
a text cell. -/
inductive PyVal where
  | none
  | nan
  | int (n : ℤ)
  | float (q : ℚ)
  | str (s : String)
deriving DecidableEq

/-- Truncation toward zero, the semantics of the Python builtin
`int` applied to a float. -/
def pytrunc (q : ℚ) : ℤ :=
  if 0 ≤ q then ⌊q⌋ else ⌈q⌉

/-- Round half to even, the semantics of the Python builtin `round`:
values between ties go to the nearest integer, ties go to the even
neighbour. -/
def pyround (q : ℚ) : ℤ :=
  if q - (⌊q⌋ : ℚ) < 1 / 2 then ⌊q⌋
  else if (1 : ℚ) / 2 < q - (⌊q⌋ : ℚ) then ⌊q⌋ + 1
  else if ⌊q⌋ % 2 = 0 then ⌊q⌋ else ⌊q⌋ + 1

/-- Whitespace, as stripped by the Python `str.strip` method. -/
def isSpaceChar (c : Char) : Bool :=
  c == ' ' || c == '\t' || c == '\n' || c == '\r'

/-- Model of the Python `str.strip` method: drop whitespace from both
ends. -/
def pystrip (l : List Char) : List Char :=
  ((l.dropWhile isSpaceChar).reverse.dropWhile isSpaceChar).reverse

/-- Model of the Python `str.replace(",", "")` call: remove every
comma. -/
def removeCommas (l : List Char) : List Char :=
  l.filter (fun c => !(c == ','))

/-- Model of the Python `str.lower` method on ASCII text. -/
def pylower (l : List Char) : List Char :=
  l.map (fun c => if 'A' ≤ c && c ≤ 'Z' then Char.ofNat (c.toNat + 32) else c)

/-- Numeric value of a list of decimal digit characters (only
meaningful when every character is a digit). -/
def digitsVal (l : List Char) : ℕ :=
  l.foldl (fun a c => a * 10 + (c.toNat - 48)) 0

/-- Strip one optional leading sign; returns (isNegative, rest). -/
def splitSign : List Char → Bool × List Char
  | '+' :: r => (false, r)
  | '-' :: r => (true, r)
  | l => (false, l)

/-- Apply a sign flag to a rational. -/
def applySign (neg : Bool) (q : ℚ) : ℚ :=
  if neg then -q else q

/-- Unsigned decimal mantissa: digits, optionally with one decimal
point; at least one digit overall. -/
def parseUnsignedMantissa (l : List Char) : Option ℚ :=
  match l.splitOn '.' with
  | [a] =>
    if !a.isEmpty && a.all Char.isDigit then some ((digitsVal a : ℕ) : ℚ)
    else Option.none
  | [a, b] =>
    if (!a.isEmpty || !b.isEmpty) && a.all Char.isDigit && b.all Char.isDigit then
      some (((digitsVal a : ℕ) : ℚ) + ((digitsVal b : ℕ) : ℚ) / (10 : ℚ) ^ b.length)
    else Option.none
  | _ => Option.none

/-- Signed integer exponent part after the letter e. -/
def parseExpPart (l : List Char) : Option ℤ :=
  let p := splitSign l
  if !p.2.isEmpty && p.2.all Char.isDigit then
    some (if p.1 then -((digitsVal p.2 : ℕ) : ℤ) else ((digitsVal p.2 : ℕ) : ℤ))
  else Option.none

/-- Model of the Python builtin `float` applied to an (already
stripped) string: an optional sign, a decimal mantissa and an optional
exponent. Returns `Option.none` where Python raises `ValueError` (and
for the textual infinity forms, where the subsequent `int()` call
raises, so the caller-visible behaviour coincides). -/
def pyfloat (l : List Char) : Option ℚ :=
  let norm := l.map (fun c => if c == 'E' then 'e' else c)
  match norm.splitOn 'e' with
  | [m] =>
    let p := splitSign m
    (parseUnsignedMantissa p.2).map (applySign p.1)
  | [m, ex] =>
    let p := splitSign m
    (parseUnsignedMantissa p.2).bind (fun q =>
      (parseExpPart ex).map (fun e => applySign p.1 (q * (10 : ℚ) ^ e)))
  | _ => Option.none

/-- The body of `to_num`, i.e. the code inside the `try` block
(lines 68-76): `Option.none` marks an exception escaping the block
(a failed `float`/`int` conversion), which the `except` clause of
`to_num` turns into the default. A `some` value is a normal return
(which may itself be the default, for NaN-like or blank inputs). -/
def to_num_body (x : PyVal) (default : ℤ) : Option ℤ :=
  match x with
  | PyVal.none => some default
  | PyVal.nan => some default
  | PyVal.int n => some n
  | PyVal.float q => some (pytrunc q)
  | PyVal.str s =>
    let t := removeCommas (pystrip s.toList)
    if t = [] ∨ pylower t = ['n', 'a', 'n'] then some default
    else (pyfloat t).map pytrunc

/-- `to_num` (lines 67-78): coerce an arbitrary cell value to an
integer, returning `default` on any failure (the `except` clause). -/
def to_num (x : PyVal) (default : ℤ := 0) : ℤ :=
  match to_num_body x default with
  | some n => n
  | Option.none => default

/-- One row of the Sales Data table, restricted to the fields the
engine reads (lines 262-263). `Option.none` models an absent column
in the spreadsheet row dictionary. -/
structure SalesRow where
  last2MonthAvg : Option PyVal
  lastMonthNet : Option PyVal
  runningMonthNet : PyVal
deriving DecidableEq

/-- `lm_net` (line 263): the historical sales figure fed to the
engine, read from the "Last 2 Month Avg Net Sales" column with the
"Last Month Net Sales" column as dictionary-get fallback and 0 as
final fallback, coerced by `to_num`. -/
def lm_net_of (row : SalesRow) : ℤ :=
  to_num (row.last2MonthAvg.getD (row.lastMonthNet.getD (PyVal.int 0))) 0

/-- `daily_offtake` (line 267): average daily offtake, the historical
sales figure divided by the number of days in the current calendar
month, 0 when that number is not positive. Real-valued: no rounding
happens here. -/
def daily_offtake (lm_net days_in_current_month : ℤ) : ℚ :=
  if 0 < days_in_current_month then (lm_net : ℚ) / (days_in_current_month : ℚ) else 0

/-- `reorder_days` (lines 270-275): the reorder window length derived
from the visit frequency. -/
def reorder_days (visit_freq days_in_current_month : ℤ) : ℤ :=
  if 1 ≤ visit_freq ∧ visit_freq ≤ 6 then 7
  else if 8 ≤ visit_freq then days_in_current_month
  else 7

/-- `ref_sales` (lines 277-280): the reference demand, rounded once
from the real-valued intermediate product. -/
def ref_sales (offtake : ℚ) (rd visit_freq : ℤ) : ℤ :=
  if 0 < visit_freq then pyround (offtake * (rd : ℚ) / (visit_freq : ℚ))
  else pyround (offtake * (rd : ℚ))

/-- `suggested` (line 289): suggested order quantity, the reference
demand minus stock on hand, clipped at zero. -/
def suggested (ref soh : ℤ) : ℤ :=
  max (ref - soh) 0

/-- `flag` (line 310): the excess-order classifier. The code compares
the ordered quantity against 1.2 times the *suggested* quantity of the
entry (`entry["Suggested"]`, line 289), clipped below by 1. The float
literal 1.2 is modelled as the exact rational 6/5. -/
def flag (qty sugg : ℤ) : String :=
  if (6 : ℚ) / 5 * ((max sugg 1 : ℤ) : ℚ) < (qty : ℚ) then "Excess Order" else "OK"

/-- One entry of `order_entries` (lines 294-300): the per-SKU values
captured while rendering the product matrix. -/
structure Entry where
  sku : String
  qty : ℤ
  soh : ℤ
  sugg : ℤ
  lmSales : ℤ
deriving DecidableEq

/-- The per-SKU computation of the product matrix loop
(lines 252-300): derive daily offtake, reorder days, reference demand
and suggested quantity, and capture the user inputs. -/
def mk_entry (sku : String) (days_in_current_month lm_net visit_freq soh qty : ℤ) : Entry :=
  { sku := sku
    qty := qty
    soh := soh
    sugg := suggested
      (ref_sales (daily_offtake lm_net days_in_current_month)
        (reorder_days visit_freq days_in_current_month) visit_freq) soh
    lmSales := lm_net }

/-- The session-level identity and free-text fields merged into every
record of one submission (lines 312-327). -/
structure Ctx where
  timestamp : String
  orderDate : String
  employee : String
  party : String
  storeName : String
  city : String
  category : String
  remarks : String
deriving DecidableEq

/-- The persisted order record (`order_dict`, lines 312-327). -/
structure OrderRecord where
  timestamp : String
  orderDate : String
  employee : String
  party : String
  storeName : String
  city : String
  category : String
  sku : String
  qty : ℤ
  soh : ℤ
  remarks : String
  last2MonthAvgNetSales : ℤ
  runningMonthNetSales : ℤ
  flag : String
deriving DecidableEq

/-- `order_dict` (lines 312-327): assemble the persisted record for
one entry. The "Running Month Net Sales" field is the literal 0 of
line 325. -/
def order_dict (ctx : Ctx) (e : Entry) : OrderRecord :=
  { timestamp := ctx.timestamp
    orderDate := ctx.orderDate
    employee := ctx.employee
    party := ctx.party
    storeName := ctx.storeName
    city := ctx.city
    category := ctx.category
    sku := e.sku
    qty := e.qty
    soh := e.soh
    remarks := ctx.remarks
    last2MonthAvgNetSales := e.lmSales
    runningMonthNetSales := 0
    flag := flag e.qty e.sugg }

/-- The skip condition of line 307: a line with zero stock on hand and
zero ordered quantity is passed over by `continue`. -/
def skip_line (e : Entry) : Bool :=
  e.soh == 0 && e.qty == 0

/-- The submission loop (lines 305-329) restricted to its persistence
effect: the sequence of records appended to the Orders sheet, one per
non-skipped entry, in order. -/
def submit_orders (ctx : Ctx) : List Entry → List OrderRecord
  | [] => []
  | e :: es =>
    if skip_line e then submit_orders ctx es
    else order_dict ctx e :: submit_orders ctx es

/-- Outcome of one `send_email` call (lines 96-106): the blank-
recipient early return of line 98, a successful send, or the
`except` branch of lines 105-106 that reports a warning instead of
propagating the transport error. -/
inductive SendResult where
  | skippedBlank
  | sent
  | warnedFailure
deriving DecidableEq

/-- `send_email` (lines 96-106). The transport is modelled by the
oracle `transportOk`: when it is false the Gmail call of line 104
raises, and the `except` clause turns that into a warning. -/
def send_email (dest : String) (transportOk : Bool) : SendResult :=
  if pystrip dest.toList = [] then SendResult.skippedBlank
  else if transportOk then SendResult.sent
  else SendResult.warnedFailure

/-- The recipient string of line 343: trimmed non-blank admin emails
joined by commas. -/
def recip_string (admins : List String) : String :=
  String.intercalate ","
    ((admins.filter (fun e => !(pystrip e.toList == []))).map
      (fun e => String.mk (pystrip e.toList)))

/-- The submission loop (lines 305-344) with its notification effect:
returns the appended records together with the outcomes of the
`send_email` calls made for excess-order lines (lines 331-344). The
oracle `ok` supplies the transport behaviour of each successive line. -/
def submit_with_notify (ctx : Ctx) (admins : List String) :
    (ℕ → Bool) → List Entry → List OrderRecord × List SendResult
  | _, [] => ([], [])
  | ok, e :: es =>
    let rest := submit_with_notify ctx admins (fun n => ok (n + 1)) es
    if skip_line e then rest
    else
      if (order_dict ctx e).flag = "Excess Order" ∧ admins ≠ [] then
        (order_dict ctx e :: rest.1, send_email (recip_string admins) (ok 0) :: rest.2)
      else
        (order_dict ctx e :: rest.1, rest.2)

/-! ### Shared sample data and evaluation lemmas -/

/-- A sample submission context. -/
def ctx0 : Ctx :=
  { timestamp := "2026-10-12 00:00:00"
    orderDate := "2026-10-12"
    employee := "E1"
    party := "P1"
    storeName := "S1"
    city := "City1"
    category := "Cat1"
    remarks := "" }

/-- A second sample context differing from `ctx0`. -/
def ctx1 : Ctx :=
  { ctx0 with remarks := "urgent restock", employee := "E2" }

/-- Scenario 1 entry: historical sales 300, a 30-day month, visit
frequency 4, stock on hand 10, ordered quantity 20. -/
def entA : Entry :=
  mk_entry "SKU1" 30 300 4 10 20

/-- An all-zero entry: no stock on hand and no ordered quantity. -/
def entZero : Entry :=
  mk_entry "SKU1" 30 0 0 0 0

/-- A transport oracle under which every send fails. -/
def oracleF : ℕ → Bool :=
  fun _ => false

theorem daily_offtake_300_30 : daily_offtake 300 30 = 10 := by
  norm_num [daily_offtake]

theorem ref_sales_scenario1 :
    ref_sales (daily_offtake 300 30) (reorder_days 4 30) 4 = 18 := by
  have h10 : daily_offtake 300 30 = 10 := daily_offtake_300_30
  have hrd : reorder_days 4 30 = 7 := by decide
  rw [h10, hrd]
  unfold ref_sales
  rw [if_pos (by norm_num)]
  have h : ((10 : ℚ) * ((7 : ℤ) : ℚ) / ((4 : ℤ) : ℚ)) = 35 / 2 := by norm_num
  rw [h]
  have hf : ⌊(35 : ℚ) / 2⌋ = 17 := by
    rw [Int.floor_eq_iff]
    constructor <;> norm_num
  unfold pyround
  rw [hf]
  norm_num

theorem suggested_18_0 : suggested 18 0 = 18 := by
  unfold suggested
  omega

theorem suggested_18_10 : suggested 18 10 = 8 := by
  unfold suggested
  omega

theorem flag_20_18_eq : flag 20 18 = "OK" := by
  unfold flag
  rw [if_neg (by
    have hm : max (18 : ℤ) 1 = 18 := by omega
    rw [hm]
    norm_num)]

theorem flag_20_8_eq : flag 20 8 = "Excess Order" := by
  unfold flag
  rw [if_pos (by
    have hm : max (8 : ℤ) 1 = 8 := by omega
    rw [hm]
    norm_num)]

theorem mem_submit_orders {ctx : Ctx} {es : List Entry} {r : OrderRecord}
    (h : r ∈ submit_orders ctx es) : ∃ e, e ∈ es ∧ r = order_dict ctx e := by
  induction es with
  | nil => simp [submit_orders] at h
  | cons e es ih =>
    unfold submit_orders at h
    cases hs : skip_line e with
    | true =>
      rw [hs] at h
      simp only [if_true] at h
      obtain ⟨e2, he, hr⟩ := ih h
      exact ⟨e2, List.mem_cons_of_mem _ he, hr⟩
    | false =>
      rw [hs] at h
      simp only [Bool.false_eq_true, if_false] at h
      rcases List.mem_cons.mp h with h1 | h2
      · exact ⟨e, List.mem_cons_self _ _, h1⟩
      · obtain ⟨e2, he, hr⟩ := ih h2
        exact ⟨e2, List.mem_cons_of_mem _ he, hr⟩

/-! ### Claim theorems -/

/-- Claim C1 counterexample: at ordered quantity 20 with the engine
reference demand 18 (scenario-1 inputs) and stock on hand 10, the code
flags "Excess Order" although 20 is not greater than 1.2 times
max(referenceDemand, 1) = 21.6 — the classifier compares against the
suggested quantity, not the reference demand. -/
theorem flag_uses_suggested_not_reference_cex :
    flag 20 (suggested (ref_sales (daily_offtake 300 30) (reorder_days 4 30) 4) 10)
      = "Excess Order" ∧
    ¬ ((6 : ℚ) / 5 *
        ((max (ref_sales (daily_offtake 300 30) (reorder_days 4 30) 4) 1 : ℤ) : ℚ)
      < (20 : ℚ)) := by
  constructor
  · rw [ref_sales_scenario1, suggested_18_10]
    exact flag_20_8_eq
  · rw [ref_sales_scenario1]
    have hm : max (18 : ℤ) 1 = 18 := by omega
    rw [hm]
    norm_num

/-- Claim C1 (amended): the classifier returns "Excess Order" exactly
when the ordered quantity is strictly greater than 1.2 times
max(suggestedQty, 1), where suggestedQty = max(referenceDemand -
stockOnHand, 0); at exact equality it returns "OK". -/
theorem flag_iff_excess_of_suggested (qty ref soh : ℤ) :
    (flag qty (suggested ref soh) = "Excess Order" ↔
      (6 : ℚ) / 5 * ((max (suggested ref soh) 1 : ℤ) : ℚ) < (qty : ℚ)) ∧
    ((qty : ℚ) = (6 : ℚ) / 5 * ((max (suggested ref soh) 1 : ℤ) : ℚ) →
      flag qty (suggested ref soh) = "OK") := by
  constructor
  · constructor
    · intro hf
      by_contra hlt
      unfold flag at hf
      rw [if_neg hlt] at hf
      exact absurd hf (by decide)
    · intro hlt
      unfold flag
      rw [if_pos hlt]
  · intro heq
    unfold flag
    rw [if_neg (by rw [heq]; exact lt_irrefl _)]

/-- Claim C1 witness: at the exact boundary (quantity 6, suggested
quantity 5, threshold 1.2 * 5 = 6) the classifier answers "OK". -/
theorem flag_iff_excess_of_suggested_witness :
    flag 6 (suggested 5 0) = "OK" :=
  (flag_iff_excess_of_suggested 6 5 0).2 (by
    have h : max (suggested 5 0) 1 = 5 := by unfold suggested; omega
    rw [h]
    norm_num)

/-- Claim C2 counterexample: two submissions with equal quantity (20)
and equal reference demand (18) but different stock on hand (0 versus
10) persist different flags, so the flag is not a function of quantity
and reference demand alone. -/
theorem flag_depends_on_soh_cex :
    (order_dict ctx0 (mk_entry "SKU1" 30 300 4 0 20)).qty
      = (order_dict ctx0 (mk_entry "SKU1" 30 300 4 10 20)).qty ∧
    (order_dict ctx0 (mk_entry "SKU1" 30 300 4 0 20)).flag
      ≠ (order_dict ctx0 (mk_entry "SKU1" 30 300 4 10 20)).flag := by
  constructor
  · rfl
  · have h1 : (order_dict ctx0 (mk_entry "SKU1" 30 300 4 0 20)).flag = "OK" := by
      show flag 20 (suggested (ref_sales (daily_offtake 300 30) (reorder_days 4 30) 4) 0) = "OK"
      rw [ref_sales_scenario1, suggested_18_0]
      exact flag_20_18_eq
    have h2 : (order_dict ctx0 (mk_entry "SKU1" 30 300 4 10 20)).flag = "Excess Order" := by
      show flag 20 (suggested (ref_sales (daily_offtake 300 30) (reorder_days 4 30) 4) 10)
        = "Excess Order"
      rw [ref_sales_scenario1, suggested_18_10]
      exact flag_20_8_eq
    rw [h1, h2]
    decide

/-- Claim C2 (amended): the persisted flag is a pure function of the
ordered quantity and the suggested quantity captured at submission
time (which itself depends on the reference demand and the stock on
hand); no other record state influences it. -/
theorem flag_pure_in_qty_and_suggested (c1 c2 : Ctx) (e1 e2 : Entry)
    (hq : e1.qty = e2.qty) (hs : e1.sugg = e2.sugg) :
    (order_dict c1 e1).flag = (order_dict c2 e2).flag := by
  show flag e1.qty e1.sugg = flag e2.qty e2.sugg
  rw [hq, hs]

/-- Claim C2 witness: two submissions of the same entry under
different session contexts carry the same flag. -/
theorem flag_pure_in_qty_and_suggested_witness :
    (order_dict ctx0 entA).flag = (order_dict ctx1 entA).flag :=
  flag_pure_in_qty_and_suggested ctx0 ctx1 entA entA rfl rfl

/-- Claim C3: the reference demand is round(offtake * reorderDays /
visitFrequency) for positive visit frequency and round(offtake *
reorderDays) otherwise, rounded exactly once at this final step: the
intermediate daily offtake stays an exact rational (1/3 in the sample),
and with visitFrequency 0, offtake 10 and reorderDays 7 the reference
demand is 70 with no division. -/
theorem ref_sales_rounding_spec :
    (∀ offtake : ℚ, ∀ rd vf : ℤ, 0 < vf →
      ref_sales offtake rd vf = pyround (offtake * (rd : ℚ) / (vf : ℚ))) ∧
    (∀ offtake : ℚ, ∀ rd vf : ℤ, vf ≤ 0 →
      ref_sales offtake rd vf = pyround (offtake * (rd : ℚ))) ∧
    ref_sales 10 7 0 = 70 ∧
    daily_offtake 1 3 = 1 / 3 := by
  refine ⟨?_, ?_, ?_, ?_⟩
  · intro off rd vf h
    unfold ref_sales
    rw [if_pos h]
  · intro off rd vf h
    unfold ref_sales
    rw [if_neg (not_lt.mpr h)]
  · unfold ref_sales
    rw [if_neg (by norm_num)]
    have h : ((10 : ℚ) * ((7 : ℤ) : ℚ)) = 70 := by norm_num
    rw [h]
    unfold pyround
    have hf : ⌊(70 : ℚ)⌋ = 70 := by
      rw [Int.floor_eq_iff]
      constructor <;> norm_num
    rw [hf]
    norm_num
  · norm_num [daily_offtake]

/-- Claim C3 witness: the two branches at visit frequencies 4 and 0. -/
theorem ref_sales_rounding_spec_witness :
    ref_sales 10 7 4 = pyround (10 * ((7 : ℤ) : ℚ) / ((4 : ℤ) : ℚ)) ∧
    ref_sales 10 7 0 = pyround (10 * ((7 : ℤ) : ℚ)) :=
  ⟨ref_sales_rounding_spec.1 10 7 4 (by norm_num),
   ref_sales_rounding_spec.2.1 10 7 0 (by norm_num)⟩

/-- Claim C4: the suggested quantity is max(referenceDemand -
stockOnHand, 0), hence never negative; scenario 1 (sales 300, 30-day
month, visit frequency 4, stock 10) yields offtake 10, reference
demand 18 and suggested quantity 8. -/
theorem suggested_clips_at_zero :
    (∀ ref soh : ℤ, 0 ≤ soh →
      suggested ref soh = max (ref - soh) 0 ∧ 0 ≤ suggested ref soh) ∧
    daily_offtake 300 30 = 10 ∧
    ref_sales (daily_offtake 300 30) (reorder_days 4 30) 4 = 18 ∧
    suggested (ref_sales (daily_offtake 300 30) (reorder_days 4 30) 4) 10 = 8 := by
  refine ⟨fun ref soh _ => ⟨rfl, le_max_right _ _⟩, daily_offtake_300_30,
    ref_sales_scenario1, ?_⟩
  rw [ref_sales_scenario1]
  exact suggested_18_10

/-- Claim C4 witness: reference demand 18 and stock 10 give suggested
quantity max(8, 0), which is non-negative. -/
theorem suggested_clips_at_zero_witness :
    suggested 18 10 = max (18 - 10) 0 ∧ 0 ≤ suggested 18 10 :=
  suggested_clips_at_zero.1 18 10 (by decide)

/-- Claim C5: the reorder window is 7 days for visit frequency in
[1,6], the length of the current month for visit frequency at least 8,
and 7 days for every other value (zero, seven, or negative). -/
theorem reorder_days_bucketing (vf dim : ℤ) :
    (1 ≤ vf ∧ vf ≤ 6 → reorder_days vf dim = 7) ∧
    (8 ≤ vf → reorder_days vf dim = dim) ∧
    (vf ≤ 0 ∨ vf = 7 → reorder_days vf dim = 7) := by
  unfold reorder_days
  refine ⟨fun h => ?_, fun h => ?_, fun h => ?_⟩
  · rw [if_pos h]
  · rw [if_neg (by omega), if_pos h]
  · rw [if_neg (by omega), if_neg (by omega)]

/-- Claim C5 witness: visit frequency 5 gives 7 days, 8 gives the
30-day month length, 0 gives 7 days. -/
theorem reorder_days_bucketing_witness :
    reorder_days 5 30 = 7 ∧ reorder_days 8 30 = 30 ∧ reorder_days 0 30 = 7 :=
  ⟨(reorder_days_bucketing 5 30).1 (by decide),
   (reorder_days_bucketing 8 30).2.1 (by decide),
   (reorder_days_bucketing 0 30).2.2 (Or.inl (by decide))⟩

/-- Claim C6: `to_num` is total — for every input value and default it
returns an integer: the parsed value when the try-block body succeeds,
and the default when the body raises, so no error reaches the
caller. -/
theorem to_num_never_raises (x : PyVal) (d : ℤ) :
    (to_num_body x d = Option.none ∧ to_num x d = d) ∨
    ∃ n : ℤ, to_num_body x d = some n ∧ to_num x d = n := by
  cases h : to_num_body x d with
  | none =>
    refine Or.inl ⟨rfl, ?_⟩
    unfold to_num
    rw [h]
  | some n =>
    refine Or.inr ⟨n, rfl, ?_⟩
    unfold to_num
    rw [h]

/-- Claim C7 counterexample: `to_num` coerces "-5" to the negative
integer -5, so its result is not always non-negative. -/
theorem to_num_negative_cex :
    to_num (PyVal.str "-5") 0 = -5 ∧ to_num (PyVal.str "-5") 0 < 0 := by
  decide

/-- Claim C7 (amended): `to_num` coerces with default 0 and the listed
examples hold — "1,234" gives 1234, the empty string gives 0, a
missing value gives 0, "abc" gives 0 — but the result is an arbitrary
integer and can be negative for inputs encoding negative numbers. -/
theorem to_num_examples :
    to_num (PyVal.str "1,234") 0 = 1234 ∧
    to_num (PyVal.str "") 0 = 0 ∧
    to_num PyVal.none 0 = 0 ∧
    to_num (PyVal.str "abc") 0 = 0 := by
  decide

/-- Claim C8 counterexample: a submission session with one SKU line
whose stock on hand and quantity are both zero appends no record at
all, not one record per submitted line. -/
theorem submit_skips_zero_line_cex :
    submit_orders ctx0 [entZero] = [] ∧ ([entZero] : List Entry).length = 1 := by
  constructor
  · rfl
  · rfl

/-- Claim C8 (amended): the ledger receives exactly one appended
record per submitted SKU line whose stock on hand or quantity is
non-zero, in submission order, each built (and flagged) independently
from its own entry; lines with both values zero are skipped. -/
theorem submit_one_record_per_nonzero_line (ctx : Ctx) (es : List Entry) :
    submit_orders ctx es = (es.filter (fun e => !skip_line e)).map (order_dict ctx) := by
  induction es with
  | nil => rfl
  | cons e es ih =>
    cases hs : skip_line e with
    | true => simp [submit_orders, List.filter_cons, hs, ih]
    | false => simp [submit_orders, List.filter_cons, hs, ih]

/-- Claim C9: a blank recipient string makes the notification a no-op,
and the persisted records of a submission do not depend on the
transport outcome — a send failure is confined to a warning and never
blocks or rolls back the appended order data. -/
theorem email_failure_nonfatal :
    (∀ dest : String, ∀ ok : Bool,
      pystrip dest.toList = [] → send_email dest ok = SendResult.skippedBlank) ∧
    (∀ ctx : Ctx, ∀ admins : List String, ∀ ok : ℕ → Bool, ∀ es : List Entry,
      (submit_with_notify ctx admins ok es).1 = submit_orders ctx es) := by
  constructor
  · intro dest ok h
    unfold send_email
    rw [if_pos h]
  · intro ctx admins ok es
    induction es generalizing ok with
    | nil => rfl
    | cons e es ih =>
      unfold submit_with_notify submit_orders
      cases hs : skip_line e with
      | true => simpa [hs] using ih _
      | false =>
        by_cases hf : (order_dict ctx e).flag = "Excess Order" ∧ admins ≠ []
        · simp [hs, hf, ih _]
        · simp [hs, hf, ih _]

/-- Claim C9 witness: an empty recipient string is skipped, and with a
failing transport the persisted records of a one-line submission equal
those of the plain persistence path. -/
theorem email_failure_nonfatal_witness :
    send_email "" true = SendResult.skippedBlank ∧
    (submit_with_notify ctx0 ["admin@example.com"] oracleF [entA]).1
      = submit_orders ctx0 [entA] :=
  ⟨email_failure_nonfatal.1 "" true (by decide),
   email_failure_nonfatal.2 ctx0 ["admin@example.com"] oracleF [entA]⟩

/-- Claim C10: every persisted record has "Running Month Net Sales"
equal to the literal 0; the sales figure the engine consumes ignores
the running-month column of the sales row, and the offtake is that
figure divided by the days in the current month. -/
theorem running_month_sales_constant_zero :
    (∀ ctx : Ctx, ∀ es : List Entry, ∀ r : OrderRecord,
      r ∈ submit_orders ctx es → r.runningMonthNetSales = 0) ∧
    (∀ a b : Option PyVal, ∀ r1 r2 : PyVal,
      lm_net_of { last2MonthAvg := a, lastMonthNet := b, runningMonthNet := r1 }
        = lm_net_of { last2MonthAvg := a, lastMonthNet := b, runningMonthNet := r2 }) ∧
    (∀ lm dim : ℤ, 0 < dim → daily_offtake lm dim = (lm : ℚ) / (dim : ℚ)) := by
  refine ⟨?_, fun a b r1 r2 => rfl, fun lm dim h => ?_⟩
  · intro ctx es r hr
    obtain ⟨e, _, rfl⟩ := mem_submit_orders hr
    rfl
  · unfold daily_offtake
    rw [if_pos h]

/-- Claim C10 witness: the record persisted for the scenario-1 entry
has running-month sales 0, and the scenario-1 offtake is 300/30. -/
theorem running_month_sales_constant_zero_witness :
    (order_dict ctx0 entA).runningMonthNetSales = 0 ∧
    daily_offtake 300 30 = ((300 : ℤ) : ℚ) / ((30 : ℤ) : ℚ) :=
  ⟨running_month_sales_constant_zero.1 ctx0 [entA] (order_dict ctx0 entA)
      (List.mem_cons_self _ _),
   running_month_sales_constant_zero.2.2 300 30 (by decide)⟩
